import Mathlib

/-!
# Token lifecycle of the NBA record system backend

A shallow embedding of `internal/database/models.go` (the `Token` and `Student`
models) and of the `Login` / `Logout` handlers of `cmd/api/handlers.go`.

* A Go `string` is its sequence of bytes, `List Nat` (`len` is the number of bytes).
* An instant (`time.Time`) and a `time.Duration` are integers counting nanoseconds;
  the store keeps an instant as it is given.
* The database is the pair of tables `students` and `tokens`, each the list of its
  rows in insertion order.  A statement is carried out on the tables; `QueryRow`
  yields the first row that satisfies the `where` clause, and `sql.ErrNoRows` when
  there is none.  No constraint is declared on the tables anywhere in the sources,
  so none is imposed here.
* A failure of a statement for a cause outside the tables (the deadline of three
  seconds, a lost connection) is not part of the store state and is not modelled:
  `Insert` and `DeleteByToken` succeed, and a query fails only with `sql.ErrNoRows`.
* The readings of `time.Now()` and the state of the random generator are explicit
  arguments.
-/

set_option autoImplicit false
set_option linter.dupNamespace false

namespace NBA

/-! ## Strings, instants, errors -/

/-- A Go string: its bytes. -/
abbrev GoString := List Nat

/-- The bytes of an ASCII literal. -/
def str (s : String) : GoString := s.toList.map Char.toNat

/-- An instant, in nanoseconds. -/
abbrev Time := Int

/-- A `time.Duration`, in nanoseconds. -/
abbrev Duration := Int

/-- The constant `time.Second`. -/
def Second : Duration := 1000000000

/-- The constant `time.Hour`. -/
def Hour : Duration := 3600 * Second

/-- An `error` value, identified by its message (`errors.New`). -/
abbrev Error := String

deriving instance DecidableEq for Except

/-- The error `sql.ErrNoRows`, returned by `Scan` when the query selected no row. -/
def ErrNoRows : Error := "sql: no rows in result set"

/-- The error `bcrypt.ErrMismatchedHashAndPassword`. -/
def ErrMismatchedHashAndPassword : Error :=
  "crypto/bcrypt: hashedPassword is not the hash of the given password"

/-- The function `strings.Split(s, sep)` for a separator of one byte: the pieces of `s`
between consecutive occurrences of `sep`; one more piece than there are occurrences. -/
def Split (s : GoString) (sep : Nat) : List GoString :=
  match s with
  | [] => [[]]
  | c :: cs =>
    if c = sep then [] :: Split cs sep
    else
      match Split cs sep with
      | [] => [[c]]
      | p :: ps => (c :: p) :: ps

/-! ## `encoding/base32`, standard alphabet, no padding -/

/-- The table `encodeStd` of `encoding/base32`. -/
def encodeStd : GoString := str "ABCDEFGHIJKLMNOPQRSTUVWXYZ234567"

/-- The eight 5-bit blocks `b[0..7]` that `Encode` unpacks from a quantum of five
bytes.  A byte that the source does not have contributes nothing to the blocks (the
`switch` on `len(src)` skips its assignments and `b` starts zeroed), which is what the
value `0` for it gives.  A left shift of a `byte` is taken modulo `2^8`. -/
def unpack (s0 s1 s2 s3 s4 : Nat) : List Nat :=
  [ s0 >>> 3,
    ((s1 >>> 6) &&& 0x1F) ||| (((s0 <<< 2) % 256) &&& 0x1F),
    (s1 >>> 1) &&& 0x1F,
    ((s2 >>> 4) &&& 0x1F) ||| (((s1 <<< 4) % 256) &&& 0x1F),
    (s3 >>> 7) ||| (((s2 <<< 1) % 256) &&& 0x1F),
    (s3 >>> 2) &&& 0x1F,
    (s4 >>> 5) ||| (((s3 <<< 3) % 256) &&& 0x1F),
    s4 &&& 0x1F ]

/-- The symbols written for one quantum: `dst[i] = enc.encode[b[i]&31]` for the first
`size` blocks. -/
def encodeBlocks (size : Nat) (b : List Nat) : GoString :=
  (b.take size).map (fun x => encodeStd.getD (x &&& 31) 0)

/-- The function `EncodedLen` without padding. -/
def EncodedLen (n : Nat) : Nat := (n * 8 + 4) / 5

/-- The function `Encode` (with `NoPadding`): every full quantum of five bytes gives
eight symbols; the last, shorter quantum gives the `EncodedLen` of its length. -/
def Encode : List Nat → GoString
  | [] => []
  | [s0] => encodeBlocks (EncodedLen 1) (unpack s0 0 0 0 0)
  | [s0, s1] => encodeBlocks (EncodedLen 2) (unpack s0 s1 0 0 0)
  | [s0, s1, s2] => encodeBlocks (EncodedLen 3) (unpack s0 s1 s2 0 0)
  | [s0, s1, s2, s3] => encodeBlocks (EncodedLen 4) (unpack s0 s1 s2 s3 0)
  | s0 :: s1 :: s2 :: s3 :: s4 :: rest =>
    encodeBlocks 8 (unpack s0 s1 s2 s3 s4) ++ Encode rest

/-- The call `base32.StdEncoding.WithPadding(base32.NoPadding).EncodeToString(src)`. -/
def EncodeToString (src : List Nat) : GoString := Encode src

/-! ## `math/rand` -/

/-- The function `rand.Read` of `math/rand`, the package that `models.go` imports: it
fills `n` bytes from the generator, whose output sequence from its current state is
`gen`, and "always returns a nil error". -/
def Read (gen : Nat → Nat) (n : Nat) : List Nat × Option Error :=
  ((List.range n).map (fun i => gen i % 256), none)

/-! ## The data model -/

/-- The struct `Student`. -/
structure Student where
  ID : Int := 0
  FirstName : GoString := []
  LastName : GoString := []
  EnrollmentNo : GoString := []
  FacultyNo : GoString := []
  Course : GoString := []
  Semester : Int := 0
  Email : GoString := []
  Password : GoString := []
  RegisteredCourses : List GoString := []
  Feedbacks : List GoString := []
  FilledFeedbacks : List GoString := []
  CreatedAt : Time := 0
  UpdatedAt : Time := 0
  deriving DecidableEq

/-- The struct `Token`. -/
structure Token where
  ID : Int := 0
  StudentID : Int := 0
  Email : GoString := []
  Token : GoString := []
  TokenHash : List Nat := []
  CreatedAt : Time := 0
  UpdatedAt : Time := 0
  Expiry : Time := 0
  deriving DecidableEq

/-- The database behind the package variable `db`: the rows of the tables `students`
and `tokens`, the oldest first, and the value that the default of the column
`tokens.id` gives to the next inserted row. -/
structure DB where
  students : List Student := []
  tokens : List Token := []
  nextTokenID : Int := 1
  deriving DecidableEq

/-! ## The `Student` model -/

/-- The method `Student.GetByEmail`: the first row of `Students` with that email, the
columns `id, email, first_name, last_name, enrollment_no, password` of it. -/
def GetByEmail (db : DB) (email : GoString) : Except Error Student :=
  match db.students.find? (fun s => s.Email = email) with
  | none => .error ErrNoRows
  | some s =>
    .ok { ID := s.ID, Email := s.Email, FirstName := s.FirstName, LastName := s.LastName,
          EnrollmentNo := s.EnrollmentNo, Password := s.Password }

/-- The method `Student.GetOne`: the first row of `Students` with that id, the columns
`id, email, first_name, last_name, password, created_at, updated_at` of it. -/
def GetOne (db : DB) (id : Int) : Except Error Student :=
  match db.students.find? (fun s => s.ID = id) with
  | none => .error ErrNoRows
  | some s =>
    .ok { ID := s.ID, Email := s.Email, FirstName := s.FirstName, LastName := s.LastName,
          Password := s.Password, CreatedAt := s.CreatedAt, UpdatedAt := s.UpdatedAt }

/-- The method `Student.PasswordMatches`, over the outcome of
`bcrypt.CompareHashAndPassword` (`none` for a match): a mismatch is `(false, nil)`,
any other error of the comparison is returned. -/
def PasswordMatches (CompareHashAndPassword : GoString → GoString → Option Error)
    (u : Student) (plainText : GoString) : Bool × Option Error :=
  match CompareHashAndPassword u.Password plainText with
  | some err =>
    if err = ErrMismatchedHashAndPassword then (false, none)
    else (false, some err)
  | none => (true, none)

/-! ## The `Token` model -/

/-- The method `Token.GetByToken`: the first row of `tokens` whose column `token` is
the plain text. -/
def GetByToken (db : DB) (plainText : GoString) : Except Error Token :=
  match db.tokens.find? (fun r => r.Token = plainText) with
  | none => .error ErrNoRows
  | some r => .ok r

/-- The method `Token.GetStudentForToken`: the first row of `Students` whose id is the
token's `StudentID`. -/
def GetStudentForToken (db : DB) (token : Token) : Except Error Student :=
  match db.students.find? (fun s => s.ID = token.StudentID) with
  | none => .error ErrNoRows
  | some s =>
    .ok { ID := s.ID, Email := s.Email, FirstName := s.FirstName, LastName := s.LastName,
          Password := s.Password, CreatedAt := s.CreatedAt, UpdatedAt := s.UpdatedAt }

/-- The method `Token.GenerateToken`, at the instant `now`, with the generator `gen`
and the digest function `Sum256` (`sha256.Sum256`). -/
def GenerateToken (Sum256 : GoString → List Nat) (now : Time) (gen : Nat → Nat)
    (user : Student) (ttl : Duration) : Except Error Token :=
  let token : Token := { StudentID := user.ID, Email := user.Email, Expiry := now + ttl }
  match Read gen 16 with
  | (_, some err) => .error err
  | (randomBytes, none) =>
    let plain := EncodeToString randomBytes
    .ok { token with Token := plain, TokenHash := Sum256 plain }

/-- One query sent to the database by `AuthenticateToken`. -/
inductive Query where
  | tokenByPlainText (plainText : GoString)
  | studentByID (id : Int)
  deriving DecidableEq

/-- The method `Token.AuthenticateToken`, on the value of the request's
`Authorization` header (empty when the header is absent) at the instant `now`: the
queries it sent, in order, and its result. -/
def AuthenticateToken (db : DB) (now : Time) (authorizationHeader : GoString) :
    List Query × Except Error Student :=
  if authorizationHeader = [] then
    ([], .error "no authorization header received")
  else
    let headerParts := Split authorizationHeader 32
    if headerParts.length ≠ 2 ∨ headerParts.getD 0 [] ≠ str "Bearer" then
      ([], .error "no valid authorization header received")
    else
      let token := headerParts.getD 1 []
      if token.length ≠ 26 then
        ([], .error "token wrong size")
      else
        match GetByToken db token with
        | .error _ => ([.tokenByPlainText token], .error "no matching token found")
        | .ok tkn =>
          if tkn.Expiry < now then
            ([.tokenByPlainText token], .error "expired token")
          else
            match GetStudentForToken db tkn with
            | .error _ =>
              ([.tokenByPlainText token, .studentByID tkn.StudentID],
                .error "no matching Student found")
            | .ok student =>
              ([.tokenByPlainText token, .studentByID tkn.StudentID], .ok student)

/-- The method `Token.Insert`; `createdAt` and `updatedAt` are its two readings of
`time.Now()`.  The rows whose `student_id` is `token.StudentID` are deleted, then a row
is inserted for `u.ID`. -/
def Insert (db : DB) (createdAt updatedAt : Time) (token : Token) (u : Student) :
    Except Error DB :=
  -- delete any existing tokens
  let db1 : DB := { db with tokens := db.tokens.filter (fun r => r.StudentID ≠ token.StudentID) }
  let token : Token := { token with Email := u.Email }
  -- insert the new token
  let row : Token :=
    { ID := db1.nextTokenID, StudentID := u.ID, Email := u.Email, Token := token.Token,
      TokenHash := token.TokenHash, CreatedAt := createdAt, UpdatedAt := updatedAt,
      Expiry := token.Expiry }
  .ok { db1 with tokens := db1.tokens ++ [row], nextTokenID := db1.nextTokenID + 1 }

/-- The method `Token.DeleteByToken`: the rows whose column `token` is the plain text
are deleted. -/
def DeleteByToken (db : DB) (plainText : GoString) : Except Error DB :=
  .ok { db with tokens := db.tokens.filter (fun r => r.Token ≠ plainText) }

/-- The method `Token.ValidToken` at the instant `now`. -/
def ValidToken (db : DB) (now : Time) (plainText : GoString) : Bool × Option Error :=
  match GetByToken db plainText with
  | .error _ => (false, some "no matching token found")
  | .ok token =>
    match GetStudentForToken db token with
    | .error _ => (false, some "no matching Student found")
    | .ok _ =>
      if token.Expiry < now then (false, some "expired token")
      else (true, none)

/-! ## The handlers -/

/-- The type `jsonResponse`; `Data` is the envelope with the token and the user. -/
structure jsonResponse where
  Error : Bool := false
  Message : String := ""
  Data : Option (Token × Student) := none
  deriving DecidableEq

/-- The struct `credentials` of `Login`. -/
structure credentials where
  UserName : GoString := []
  Password : GoString := []
  deriving DecidableEq

/-- What a handler hands to the response writer: a call of `app.errorJSON` with the
error and the optional status, or a call of `app.writeJSON` with the status and the
payload. -/
inductive Written where
  | errorJSON (err : Error) (status : List Nat)
  | writeJSON (status : Nat) (payload : jsonResponse)
  deriving DecidableEq

/-- The handler `Login`.  `readErr` and `creds` are what `app.readJSON` returned and
left in `creds`; the handler does not return after reporting `readErr`.  `now` is the
reading of the clock in `GenerateToken`, `createdAt` and `updatedAt` those in `Insert`.
The result is the calls made on the response writer, in order, and the database
afterwards. -/
def Login (CompareHashAndPassword : GoString → GoString → Option Error)
    (Sum256 : GoString → List Nat) (db : DB) (now createdAt updatedAt : Time)
    (gen : Nat → Nat) (readErr : Option Error) (creds : credentials) : List Written × DB :=
  let first : List Written :=
    match readErr with
    | some _ =>
      [.writeJSON 400
        { Error := true, Message := "invalid json supplied, or json missing entirely" }]
    | none => []
  -- look up the user by email
  match GetByEmail db creds.UserName with
  | .error _ => (first ++ [.errorJSON "user does not exist" []], db)
  | .ok user =>
    -- validate the user's password
    match PasswordMatches CompareHashAndPassword user creds.Password with
    | (validPassword, err) =>
      if err ≠ none ∨ validPassword = false then
        (first ++ [.errorJSON "invalid username/password" []], db)
      else
        -- we have a valid user, so generate a token
        match GenerateToken Sum256 now gen user (24 * Hour) with
        | .error err => (first ++ [.errorJSON err []], db)
        | .ok token =>
          -- save it to the database
          match Insert db createdAt updatedAt token user with
          | .error err => (first ++ [.errorJSON err []], db)
          | .ok db2 =>
            (first ++ [.writeJSON 200
              { Error := false, Message := "logged in", Data := some (token, user) }], db2)

/-- The handler `Logout`, on what `app.readJSON` returned and left in the payload. -/
def Logout (db : DB) (readErr : Option Error) (token : GoString) : List Written × DB :=
  match readErr with
  | some _ => ([.errorJSON "invalid json " []], db)
  | none =>
    match DeleteByToken db token with
    | .error _ => ([.errorJSON "invalid json recieved" []], db)
    | .ok db2 => ([.writeJSON 200 { Error := false, Message := "logged out" }], db2)

/-! ## Predicates of the specification -/

/-- The shape `Bearer <token>` of a header value: the bytes of `Bearer`, one space, then
a segment of 26 bytes none of which is a space. -/
def WellFormedHeader (h : GoString) : Prop :=
  h.take 7 = str "Bearer " ∧ 32 ∉ h.drop 7 ∧ (h.drop 7).length = 26

instance (h : GoString) : Decidable (WellFormedHeader h) := by
  unfold WellFormedHeader; infer_instance

/-- A symbol of the RFC 4648 base-32 alphabet: `A`..`Z` or `2`..`7`. -/
def IsBase32Symbol (c : Nat) : Prop := (65 ≤ c ∧ c ≤ 90) ∨ (50 ≤ c ∧ c ≤ 55)

/-- At most one token record exists per identity. -/
def AtMostOneTokenPerIdentity (db : DB) : Prop :=
  db.tokens.Pairwise (fun a b => a.StudentID ≠ b.StudentID)

instance (db : DB) : Decidable (AtMostOneTokenPerIdentity db) := by
  unfold AtMostOneTokenPerIdentity; infer_instance

/-! ## Concrete inputs -/

/-- A generator state whose next outputs are all `0`: the token minted from it is
`AAAAAAAAAAAAAAAAAAAAAAAAAA`. -/
def zeros : Nat → Nat := fun _ => 0

/-- A generator state whose next outputs are all `255`: the token minted from it is
`77777777777777777777777774`. -/
def ones : Nat → Nat := fun _ => 255

/-- A value for the digest parameter in the concrete examples. -/
def exampleSum256 : GoString → List Nat := fun s => [s.length]

/-- A value for the password comparison in the concrete examples: the stored value
matches the password equal to it and mismatches every other. -/
def exampleCompare : GoString → GoString → Option Error :=
  fun hashed password => if hashed = password then none else some ErrMismatchedHashAndPassword

/-- The `Students` row of a first identity. -/
def alice : Student := { ID := 1, Email := str "a@x.com", Password := str "secret123" }

/-- The `Students` row of a second identity. -/
def bob : Student := { ID := 2, Email := str "b@x.com", Password := str "hunter2" }

/-- A store with the two identities and no token. -/
def store0 : DB := { students := [alice, bob] }

/-- The token minted for `alice` at the instant `100` with a `ttl` of `50` from `zeros`. -/
def aliceToken : Token :=
  { StudentID := 1, Email := str "a@x.com", Token := str "AAAAAAAAAAAAAAAAAAAAAAAAAA",
    TokenHash := [26], Expiry := 150 }

/-- The token minted for `alice` at the instant `110` with a `ttl` of `50` from `zeros`. -/
def aliceToken2 : Token :=
  { StudentID := 1, Email := str "a@x.com", Token := str "AAAAAAAAAAAAAAAAAAAAAAAAAA",
    TokenHash := [26], Expiry := 160 }

/-- The token minted for `alice` at the instant `110` with a `ttl` of `50` from `ones`. -/
def aliceToken3 : Token :=
  { StudentID := 1, Email := str "a@x.com", Token := str "77777777777777777777777774",
    TokenHash := [26], Expiry := 160 }

/-- The row that committing `aliceToken` at the instant `100` writes. -/
def aliceRow : Token :=
  { ID := 1, StudentID := 1, Email := str "a@x.com",
    Token := str "AAAAAAAAAAAAAAAAAAAAAAAAAA", TokenHash := [26],
    CreatedAt := 100, UpdatedAt := 100, Expiry := 150 }

/-- The store `store0` after `aliceToken` is committed at the instant `100`. -/
def store1 : DB := { students := [alice, bob], tokens := [aliceRow], nextTokenID := 2 }

/-- The store `store1` after the plain text of `aliceToken` is deleted. -/
def store1Revoked : DB := { students := [alice, bob], tokens := [], nextTokenID := 2 }

/-- The store `store1` after `aliceToken2` is committed at the instant `110`. -/
def store2 : DB :=
  { students := [alice, bob],
    tokens := [{ ID := 2, StudentID := 1, Email := str "a@x.com",
                 Token := str "AAAAAAAAAAAAAAAAAAAAAAAAAA", TokenHash := [26],
                 CreatedAt := 110, UpdatedAt := 110, Expiry := 160 }],
    nextTokenID := 3 }

/-- The store `store1` after `aliceToken3` is committed at the instant `110`. -/
def store3 : DB :=
  { students := [alice, bob],
    tokens := [{ ID := 2, StudentID := 1, Email := str "a@x.com",
                 Token := str "77777777777777777777777774", TokenHash := [26],
                 CreatedAt := 110, UpdatedAt := 110, Expiry := 160 }],
    nextTokenID := 3 }

/-- A store in which `bob` holds a token record with the plain text
`AAAAAAAAAAAAAAAAAAAAAAAAAA`: the store `store0` after `bob` logged in at the instant
`10`, served from the generator state `zeros`; the record is valid for 24 hours. -/
def bobStore : DB :=
  { students := [alice, bob],
    tokens := [{ ID := 1, StudentID := 2, Email := str "b@x.com",
                 Token := str "AAAAAAAAAAAAAAAAAAAAAAAAAA", TokenHash := [26],
                 CreatedAt := 10, UpdatedAt := 10, Expiry := 86400000000010 }],
    nextTokenID := 2 }

/-- The store `bobStore` after `aliceToken` is committed at the instant `100`. -/
def bobStore1 : DB :=
  { students := [alice, bob],
    tokens := [{ ID := 1, StudentID := 2, Email := str "b@x.com",
                 Token := str "AAAAAAAAAAAAAAAAAAAAAAAAAA", TokenHash := [26],
                 CreatedAt := 10, UpdatedAt := 10, Expiry := 86400000000010 },
               { ID := 2, StudentID := 1, Email := str "a@x.com",
                 Token := str "AAAAAAAAAAAAAAAAAAAAAAAAAA", TokenHash := [26],
                 CreatedAt := 100, UpdatedAt := 100, Expiry := 150 }],
    nextTokenID := 3 }

/-- The store `bobStore1` after `aliceToken3` is committed at the instant `110`. -/
def bobStore2 : DB :=
  { students := [alice, bob],
    tokens := [{ ID := 1, StudentID := 2, Email := str "b@x.com",
                 Token := str "AAAAAAAAAAAAAAAAAAAAAAAAAA", TokenHash := [26],
                 CreatedAt := 10, UpdatedAt := 10, Expiry := 86400000000010 },
               { ID := 3, StudentID := 1, Email := str "a@x.com",
                 Token := str "77777777777777777777777774", TokenHash := [26],
                 CreatedAt := 110, UpdatedAt := 110, Expiry := 160 }],
    nextTokenID := 4 }

/-- The row that committing `aliceToken` at the instant `100` writes in `bobStore`: the
second row of `bobStore1`, stored behind the record of `bob` with the same plain text. -/
def aliceRowB : Token :=
  { ID := 2, StudentID := 1, Email := str "a@x.com",
    Token := str "AAAAAAAAAAAAAAAAAAAAAAAAAA", TokenHash := [26],
    CreatedAt := 100, UpdatedAt := 100, Expiry := 150 }

/-- A store in which an older record of `bob` with the plain text
`AAAAAAAAAAAAAAAAAAAAAAAAAA` expired at the instant `50`, followed by the record
`aliceRowB` of `alice` with the same plain text, which expires at the instant `150`. -/
def staleStore : DB :=
  { students := [alice, bob],
    tokens := [{ ID := 1, StudentID := 2, Email := str "b@x.com",
                 Token := str "AAAAAAAAAAAAAAAAAAAAAAAAAA", TokenHash := [26],
                 CreatedAt := 10, UpdatedAt := 10, Expiry := 50 },
               aliceRowB],
    nextTokenID := 3 }

/-- The identity record that the lookup by id returns for `alice`. -/
def aliceRecord : Student := { ID := 1, Email := str "a@x.com", Password := str "secret123" }

/-- The identity record that the lookup by id returns for `bob`. -/
def bobRecord : Student := { ID := 2, Email := str "b@x.com", Password := str "hunter2" }

/-- A token record naming the identity `2`, handed to `Insert` together with `alice`. -/
def strayToken : Token :=
  { StudentID := 2, Email := str "b@x.com", Token := str "BBBBBBBBBBBBBBBBBBBBBBBBBB",
    TokenHash := [26], Expiry := 300 }

/-- The store `store1` after `Insert(strayToken, alice)` at the instant `200`. -/
def strayStore : DB :=
  { students := [alice, bob],
    tokens := [{ ID := 1, StudentID := 1, Email := str "a@x.com",
                 Token := str "AAAAAAAAAAAAAAAAAAAAAAAAAA", TokenHash := [26],
                 CreatedAt := 100, UpdatedAt := 100, Expiry := 150 },
               { ID := 2, StudentID := 1, Email := str "a@x.com",
                 Token := str "BBBBBBBBBBBBBBBBBBBBBBBBBB", TokenHash := [26],
                 CreatedAt := 200, UpdatedAt := 200, Expiry := 300 }],
    nextTokenID := 3 }

/-! ## Lemmas on `Split` -/

theorem Split_ne_nil (s : GoString) (sep : Nat) : Split s sep ≠ [] := by
  cases s with
  | nil => simp [Split]
  | cons c cs =>
    unfold Split
    split
    · simp
    · split <;> simp

theorem Split_eq_single {s : GoString} {sep : Nat} (h : sep ∉ s) : Split s sep = [s] := by
  induction s with
  | nil => simp [Split]
  | cons c cs ih =>
    have hc : c ≠ sep := fun e => h (by simp [e])
    have hcs : sep ∉ cs := fun e => h (by simp [e])
    simp [Split, hc, ih hcs]

theorem Split_append_sep {a : GoString} (b : GoString) {sep : Nat} (h : sep ∉ a) :
    Split (a ++ sep :: b) sep = a :: Split b sep := by
  induction a with
  | nil => simp [Split]
  | cons c cs ih =>
    have hc : c ≠ sep := fun e => h (by simp [e])
    have hcs : sep ∉ cs := fun e => h (by simp [e])
    simp [Split, hc, ih hcs]

theorem Split_single_inv {s b : GoString} {sep : Nat} (h : Split s sep = [b]) :
    s = b ∧ sep ∉ b := by
  induction s generalizing b with
  | nil => simp [Split] at h; subst h; simp
  | cons c cs ih =>
    unfold Split at h
    split at h
    · simp at h
      exact absurd h.2 (Split_ne_nil cs sep)
    · rename_i hc
      split at h
      · rename_i hnil
        exact absurd hnil (Split_ne_nil cs sep)
      · rename_i p ps hp
        simp at h
        obtain ⟨h1, h2⟩ := h
        subst h2
        obtain ⟨e1, e2⟩ := ih hp
        subst h1
        subst e1
        refine ⟨rfl, ?_⟩
        simp [e2]
        exact fun e => hc e.symm

theorem Split_pair_inv {s a b : GoString} {sep : Nat} (h : Split s sep = [a, b]) :
    s = a ++ sep :: b ∧ sep ∉ b := by
  induction s generalizing a with
  | nil => simp [Split] at h
  | cons c cs ih =>
    unfold Split at h
    split at h
    · rename_i hc
      simp at h
      obtain ⟨h1, h2⟩ := h
      obtain ⟨e1, e2⟩ := Split_single_inv h2
      subst h1; subst e1; subst hc
      exact ⟨rfl, e2⟩
    · split at h
      · simp at h
      · rename_i p ps hp
        simp at h
        obtain ⟨h1, h2⟩ := h
        subst h1; subst h2
        obtain ⟨e1, e2⟩ := ih hp
        subst e1
        exact ⟨rfl, e2⟩

theorem str_Bearer_space : str "Bearer " = str "Bearer" ++ [32] := by decide

theorem Split_Bearer {token : GoString} (h : 32 ∉ token) :
    Split (str "Bearer " ++ token) 32 = [str "Bearer", token] := by
  have h6 : (32 : Nat) ∉ str "Bearer" := by decide
  rw [str_Bearer_space, List.append_assoc]
  simp only [List.singleton_append]
  rw [Split_append_sep token h6, Split_eq_single h]

/-! ## Lemmas on the base-32 encoding -/

/-- The test vectors of RFC 4648, section 10, without the padding. -/
theorem EncodeToString_rfc4648 :
    EncodeToString (str "") = str "" ∧
    EncodeToString (str "f") = str "MY" ∧
    EncodeToString (str "fo") = str "MZXQ" ∧
    EncodeToString (str "foo") = str "MZXW6" ∧
    EncodeToString (str "foob") = str "MZXW6YQ" ∧
    EncodeToString (str "fooba") = str "MZXW6YTB" ∧
    EncodeToString (str "foobar") = str "MZXW6YTBOI" := by
  decide

theorem encodeStd_symbol (x : Nat) : IsBase32Symbol (encodeStd.getD (x &&& 31) 0) := by
  have h : x &&& 31 < 32 := Nat.and_lt_two_pow x (by norm_num : 31 < 2 ^ 5)
  have all : ∀ i, i < 32 → IsBase32Symbol (encodeStd.getD i 0) := by
    unfold IsBase32Symbol
    decide
  exact all _ h

theorem encodeBlocks_symbol (size : Nat) (b : List Nat) :
    ∀ c ∈ encodeBlocks size b, IsBase32Symbol c := by
  intro c hc
  simp only [encodeBlocks, List.mem_map] at hc
  obtain ⟨x, -, rfl⟩ := hc
  exact encodeStd_symbol x

theorem encodeBlocks_length (size : Nat) (b : List Nat) :
    (encodeBlocks size b).length = min size b.length := by
  simp [encodeBlocks]

theorem Encode_symbol (src : List Nat) : ∀ c ∈ Encode src, IsBase32Symbol c := by
  induction src using Encode.induct with
  | case1 => simp [Encode]
  | case2 s0 => simpa [Encode] using encodeBlocks_symbol _ _
  | case3 s0 s1 => simpa [Encode] using encodeBlocks_symbol _ _
  | case4 s0 s1 s2 => simpa [Encode] using encodeBlocks_symbol _ _
  | case5 s0 s1 s2 s3 => simpa [Encode] using encodeBlocks_symbol _ _
  | case6 s0 s1 s2 s3 s4 rest ih =>
    intro c hc
    simp only [Encode, List.mem_append] at hc
    rcases hc with hc | hc
    · exact encodeBlocks_symbol _ _ c hc
    · exact ih c hc

theorem Encode_length (src : List Nat) : (Encode src).length = EncodedLen src.length := by
  induction src using Encode.induct with
  | case1 => simp [Encode, EncodedLen]
  | case2 s0 => simp [Encode, EncodedLen, encodeBlocks_length, unpack]
  | case3 s0 s1 => simp [Encode, EncodedLen, encodeBlocks_length, unpack]
  | case4 s0 s1 s2 => simp [Encode, EncodedLen, encodeBlocks_length, unpack]
  | case5 s0 s1 s2 s3 => simp [Encode, EncodedLen, encodeBlocks_length, unpack]
  | case6 s0 s1 s2 s3 s4 rest ih =>
    simp only [Encode, List.length_append, ih, encodeBlocks_length, unpack, List.length_cons,
      List.length_nil, EncodedLen]
    omega

theorem IsBase32Symbol_ne_space {c : Nat} (h : IsBase32Symbol c) : c ≠ 32 := by
  unfold IsBase32Symbol at h; omega

theorem IsBase32Symbol_ne_pad {c : Nat} (h : IsBase32Symbol c) : c ≠ 61 := by
  unfold IsBase32Symbol at h; omega

theorem Read_length (gen : Nat → Nat) (n : Nat) : (Read gen n).1.length = n := by
  simp [Read]

/-- What `GenerateToken` returns: it never aborts, and its fields are these. -/
theorem GenerateToken_eq (Sum256 : GoString → List Nat) (now : Time) (gen : Nat → Nat)
    (user : Student) (ttl : Duration) :
    GenerateToken Sum256 now gen user ttl =
      .ok { StudentID := user.ID, Email := user.Email, Expiry := now + ttl,
            Token := EncodeToString (Read gen 16).1,
            TokenHash := Sum256 (EncodeToString (Read gen 16).1) } := by
  rfl

theorem minted_length (gen : Nat → Nat) : (EncodeToString (Read gen 16).1).length = 26 := by
  rw [EncodeToString, Encode_length, Read_length]
  rfl

theorem minted_no_space (gen : Nat → Nat) : 32 ∉ EncodeToString (Read gen 16).1 := by
  intro h
  exact IsBase32Symbol_ne_space (Encode_symbol _ _ h) rfl

/-! ## Lemmas on `AuthenticateToken` -/

theorem Bearer_ne_nil (token : GoString) : str "Bearer " ++ token ≠ [] := by
  rw [str_Bearer_space]
  intro h
  have := congrArg List.length h
  simp at this

/-- On a header `Bearer <token>` whose token has 26 bytes and no space, the parsing
steps pass and the result is decided by the two lookups. -/
theorem AuthenticateToken_Bearer (db : DB) (now : Time) {token : GoString}
    (hlen : token.length = 26) (hsp : 32 ∉ token) :
    AuthenticateToken db now (str "Bearer " ++ token) =
      match GetByToken db token with
      | .error _ => ([.tokenByPlainText token], .error "no matching token found")
      | .ok tkn =>
        if tkn.Expiry < now then
          ([.tokenByPlainText token], .error "expired token")
        else
          match GetStudentForToken db tkn with
          | .error _ =>
            ([.tokenByPlainText token, .studentByID tkn.StudentID],
              .error "no matching Student found")
          | .ok student =>
            ([.tokenByPlainText token, .studentByID tkn.StudentID], .ok student) := by
  unfold AuthenticateToken
  rw [if_neg (Bearer_ne_nil token)]
  simp [Split_Bearer hsp, hlen]

theorem AuthenticateToken_not_found (db : DB) (now : Time) {token : GoString}
    (hlen : token.length = 26) (hsp : 32 ∉ token) {e : Error}
    (hget : GetByToken db token = .error e) :
    AuthenticateToken db now (str "Bearer " ++ token) =
      ([.tokenByPlainText token], .error "no matching token found") := by
  rw [AuthenticateToken_Bearer db now hlen hsp, hget]

theorem AuthenticateToken_expired (db : DB) (now : Time) {token : GoString}
    (hlen : token.length = 26) (hsp : 32 ∉ token) {tkn : Token}
    (hget : GetByToken db token = .ok tkn) (hexp : tkn.Expiry < now) :
    AuthenticateToken db now (str "Bearer " ++ token) =
      ([.tokenByPlainText token], .error "expired token") := by
  rw [AuthenticateToken_Bearer db now hlen hsp, hget]
  simp [hexp]

theorem AuthenticateToken_ok (db : DB) (now : Time) {token : GoString}
    (hlen : token.length = 26) (hsp : 32 ∉ token) {tkn : Token}
    (hget : GetByToken db token = .ok tkn) (hexp : now ≤ tkn.Expiry) {s : Student}
    (hs : GetStudentForToken db tkn = .ok s) :
    AuthenticateToken db now (str "Bearer " ++ token) =
      ([.tokenByPlainText token, .studentByID tkn.StudentID], .ok s) := by
  rw [AuthenticateToken_Bearer db now hlen hsp, hget]
  simp [not_lt.mpr hexp, hs]

theorem AuthenticateToken_no_student (db : DB) (now : Time) {token : GoString}
    (hlen : token.length = 26) (hsp : 32 ∉ token) {tkn : Token}
    (hget : GetByToken db token = .ok tkn) (hexp : now ≤ tkn.Expiry) {e : Error}
    (hs : GetStudentForToken db tkn = .error e) :
    AuthenticateToken db now (str "Bearer " ++ token) =
      ([.tokenByPlainText token, .studentByID tkn.StudentID],
        .error "no matching Student found") := by
  rw [AuthenticateToken_Bearer db now hlen hsp, hget]
  simp [not_lt.mpr hexp, hs]

/-- A header on which the parsing steps pass has the shape `Bearer <token>`. -/
theorem WellFormedHeader_of_parse {h : GoString}
    (h2 : (Split h 32).length = 2) (hb : (Split h 32).getD 0 [] = str "Bearer")
    (h26 : ((Split h 32).getD 1 []).length = 26) : WellFormedHeader h := by
  match hs : Split h 32, h2 with
  | [a, b], _ =>
    rw [hs] at hb h26
    simp at hb h26
    obtain ⟨e, hsp⟩ := Split_pair_inv hs
    subst hb
    have e2 : h = str "Bearer " ++ b := by
      rw [e, str_Bearer_space]; simp
    have l7 : (str "Bearer ").length = 7 := by decide
    refine ⟨?_, ?_, ?_⟩
    · rw [e2, List.take_left' l7]
    · rw [e2, List.drop_left' l7]; exact hsp
    · rw [e2, List.drop_left' l7]; exact h26

/-! ## Lemmas on the store operations -/

/-- The row that `Insert` writes. -/
theorem Insert_eq (db : DB) (createdAt updatedAt : Time) (token : Token) (u : Student) :
    Insert db createdAt updatedAt token u =
      .ok { students := db.students,
            tokens := db.tokens.filter (fun r => r.StudentID ≠ token.StudentID) ++
              [{ ID := db.nextTokenID, StudentID := u.ID, Email := u.Email,
                 Token := token.Token, TokenHash := token.TokenHash,
                 CreatedAt := createdAt, UpdatedAt := updatedAt, Expiry := token.Expiry }],
            nextTokenID := db.nextTokenID + 1 } := by
  rfl

theorem GetStudentForToken_eq_GetOne (db : DB) (token : Token) :
    GetStudentForToken db token = GetOne db token.StudentID := by
  rfl

theorem GetOne_ID {db : DB} {id : Int} {s : Student} (h : GetOne db id = .ok s) : s.ID = id := by
  unfold GetOne at h
  split at h
  · simp at h
  · rename_i r hr
    have hid := List.find?_some hr
    simp only [Except.ok.injEq] at h
    subst h
    simpa using hid

/-- After `Insert`, the plain text of the inserted token selects the inserted row,
when no row left in the table carries the same plain text. -/
theorem GetByToken_Insert {db db2 : DB} {createdAt updatedAt : Time} {token : Token}
    {u : Student} (hins : Insert db createdAt updatedAt token u = .ok db2)
    (hfresh : ∀ r ∈ db.tokens, r.StudentID ≠ token.StudentID → r.Token ≠ token.Token) :
    GetByToken db2 token.Token =
      .ok { ID := db.nextTokenID, StudentID := u.ID, Email := u.Email,
            Token := token.Token, TokenHash := token.TokenHash,
            CreatedAt := createdAt, UpdatedAt := updatedAt, Expiry := token.Expiry } := by
  rw [Insert_eq] at hins
  simp only [Except.ok.injEq] at hins
  subst hins
  have hnone : List.find? (fun r => decide (r.Token = token.Token))
      (db.tokens.filter (fun r => r.StudentID ≠ token.StudentID)) = none := by
    rw [List.find?_eq_none]
    intro r hr
    simp only [List.mem_filter, decide_eq_true_eq] at hr
    simpa using hfresh r hr.1 hr.2
  unfold GetByToken
  dsimp only
  rw [List.find?_append, hnone]
  simp

/-- After `Insert`, a plain text other than the inserted one that no row left in the
table carries selects nothing. -/
theorem GetByToken_Insert_other {db db2 : DB} {createdAt updatedAt : Time} {token : Token}
    {u : Student} (hins : Insert db createdAt updatedAt token u = .ok db2)
    {plainText : GoString} (hne : token.Token ≠ plainText)
    (hfresh : ∀ r ∈ db.tokens, r.StudentID ≠ token.StudentID → r.Token ≠ plainText) :
    GetByToken db2 plainText = .error ErrNoRows := by
  rw [Insert_eq] at hins
  simp only [Except.ok.injEq] at hins
  subst hins
  have hnone : List.find? (fun r => decide (r.Token = plainText))
      (db.tokens.filter (fun r => r.StudentID ≠ token.StudentID)) = none := by
    rw [List.find?_eq_none]
    intro r hr
    simp only [List.mem_filter, decide_eq_true_eq] at hr
    simpa using hfresh r hr.1 hr.2
  unfold GetByToken
  dsimp only
  rw [List.find?_append, hnone]
  simp [hne]

/-- The rows of `tokens` after `Insert`. -/
theorem mem_tokens_Insert {db db2 : DB} {createdAt updatedAt : Time} {token : Token}
    {u : Student} (hins : Insert db createdAt updatedAt token u = .ok db2) (r : Token) :
    r ∈ db2.tokens ↔
      (r ∈ db.tokens ∧ r.StudentID ≠ token.StudentID) ∨
      r = { ID := db.nextTokenID, StudentID := u.ID, Email := u.Email,
            Token := token.Token, TokenHash := token.TokenHash,
            CreatedAt := createdAt, UpdatedAt := updatedAt, Expiry := token.Expiry } := by
  rw [Insert_eq] at hins
  simp only [Except.ok.injEq] at hins
  subst hins
  simp

theorem students_Insert {db db2 : DB} {createdAt updatedAt : Time} {token : Token}
    {u : Student} (hins : Insert db createdAt updatedAt token u = .ok db2) :
    db2.students = db.students := by
  rw [Insert_eq] at hins
  simp only [Except.ok.injEq] at hins
  subst hins
  rfl

/-- When the token record names the identity it is inserted for, `Insert` leaves
exactly one row of that identity, the inserted one, and keeps the rows of the others. -/
theorem Insert_one_row_per_identity {db db2 : DB} {createdAt updatedAt : Time}
    {token : Token} {u : Student} (hins : Insert db createdAt updatedAt token u = .ok db2)
    (hid : token.StudentID = u.ID) :
    db2.tokens.filter (fun r => r.StudentID = u.ID) =
        [{ ID := db.nextTokenID, StudentID := u.ID, Email := u.Email,
           Token := token.Token, TokenHash := token.TokenHash,
           CreatedAt := createdAt, UpdatedAt := updatedAt, Expiry := token.Expiry }] ∧
      db2.tokens.filter (fun r => r.StudentID ≠ u.ID) =
        db.tokens.filter (fun r => r.StudentID ≠ u.ID) := by
  rw [Insert_eq] at hins
  simp only [Except.ok.injEq] at hins
  subst hins
  rw [hid]
  simp [List.filter_append, List.filter_filter]

/-- A stored record that no other stored record shares its plain text with is the one
the lookup by that plain text returns. -/
theorem GetByToken_of_unique {db : DB} {tkn : Token} (hmem : tkn ∈ db.tokens)
    (huniq : ∀ r ∈ db.tokens, r.Token = tkn.Token → r = tkn) :
    GetByToken db tkn.Token = .ok tkn := by
  unfold GetByToken
  cases hf : db.tokens.find? (fun r => r.Token = tkn.Token) with
  | none =>
    rw [List.find?_eq_none] at hf
    exact absurd (by simp) (hf tkn hmem)
  | some r =>
    have hr : r.Token = tkn.Token := by simpa using List.find?_some hf
    rw [huniq r (List.mem_of_find?_eq_some hf) hr]

theorem DeleteByToken_eq (db : DB) (plainText : GoString) :
    DeleteByToken db plainText =
      .ok { db with tokens := db.tokens.filter (fun r => r.Token ≠ plainText) } := by
  rfl

theorem GetByToken_DeleteByToken {db db2 : DB} {plainText : GoString}
    (hdel : DeleteByToken db plainText = .ok db2) :
    GetByToken db2 plainText = .error ErrNoRows := by
  rw [DeleteByToken_eq] at hdel
  simp only [Except.ok.injEq] at hdel
  subst hdel
  have hnone : List.find? (fun r => decide (r.Token = plainText))
      (db.tokens.filter (fun r => r.Token ≠ plainText)) = none := by
    rw [List.find?_eq_none]
    intro r hr
    simp only [List.mem_filter, decide_eq_true_eq] at hr
    simpa using hr.2
  unfold GetByToken
  dsimp only
  rw [hnone]

/-! ## The concrete inputs, evaluated -/

theorem mint_aliceToken : GenerateToken exampleSum256 100 zeros alice 50 = .ok aliceToken := by
  decide

theorem mint_aliceToken2 : GenerateToken exampleSum256 110 zeros alice 50 = .ok aliceToken2 := by
  decide

theorem mint_aliceToken3 : GenerateToken exampleSum256 110 ones alice 50 = .ok aliceToken3 := by
  decide

theorem commit_store1 : Insert store0 100 100 aliceToken alice = .ok store1 := by decide

theorem commit_store2 : Insert store1 110 110 aliceToken2 alice = .ok store2 := by decide

theorem commit_store3 : Insert store1 110 110 aliceToken3 alice = .ok store3 := by decide

theorem commit_bobStore1 : Insert bobStore 100 100 aliceToken alice = .ok bobStore1 := by decide

theorem commit_bobStore2 : Insert bobStore1 110 110 aliceToken3 alice = .ok bobStore2 := by
  decide

theorem commit_strayStore : Insert store1 200 200 strayToken alice = .ok strayStore := by decide

theorem resolve_alice : GetOne store0 alice.ID = .ok aliceRecord := by decide

/-! ## Lemmas on `Login` -/

/-- Two logins served from the same generator state: `bob` logs in at the instant `10`,
which gives `bobStore`, then `alice` at the instant `100`; the plain text minted for
`alice` is the one `bob` holds, and her header authenticates as `bob`. -/
theorem Login_twice_same_generator_state :
    (Login exampleCompare exampleSum256 store0 10 10 10 zeros none
      { UserName := str "b@x.com", Password := str "hunter2" }).2 = bobStore ∧
    (AuthenticateToken
      (Login exampleCompare exampleSum256 bobStore 100 100 100 zeros none
        { UserName := str "a@x.com", Password := str "secret123" }).2
      120 (str "Bearer AAAAAAAAAAAAAAAAAAAAAAAAAA")).2 = .ok bobRecord := by
  decide

/-- An email that resolves to no identity is answered `user does not exist`. -/
theorem Login_unknown_email (CompareHashAndPassword : GoString → GoString → Option Error)
    (Sum256 : GoString → List Nat) (db : DB) (now createdAt updatedAt : Time)
    (gen : Nat → Nat) (creds : credentials) {e : Error}
    (h : GetByEmail db creds.UserName = .error e) :
    Login CompareHashAndPassword Sum256 db now createdAt updatedAt gen none creds =
      ([.errorJSON "user does not exist" []], db) := by
  unfold Login
  simp [h]

/-- A password that the comparison turns down, for a mismatch or for any other error,
is answered `invalid username/password`. -/
theorem Login_wrong_password (CompareHashAndPassword : GoString → GoString → Option Error)
    (Sum256 : GoString → List Nat) (db : DB) (now createdAt updatedAt : Time)
    (gen : Nat → Nat) (creds : credentials) {user : Student}
    (h : GetByEmail db creds.UserName = .ok user)
    (hpw : CompareHashAndPassword user.Password creds.Password ≠ none) :
    Login CompareHashAndPassword Sum256 db now createdAt updatedAt gen none creds =
      ([.errorJSON "invalid username/password" []], db) := by
  unfold Login
  simp only [h, List.nil_append]
  unfold PasswordMatches
  cases hc : CompareHashAndPassword user.Password creds.Password with
  | none => exact absurd hc hpw
  | some err =>
    by_cases he : err = ErrMismatchedHashAndPassword
    · simp [he]
    · simp [he]

/-- When the token record names the identity it is inserted for, `Insert` keeps the
store at one token record per identity at most. -/
theorem Insert_preserves_one_per_identity {db db2 : DB} {createdAt updatedAt : Time}
    {token : Token} {u : Student} (hins : Insert db createdAt updatedAt token u = .ok db2)
    (hid : token.StudentID = u.ID) (hinv : AtMostOneTokenPerIdentity db) :
    AtMostOneTokenPerIdentity db2 := by
  rw [Insert_eq] at hins
  simp only [Except.ok.injEq] at hins
  subst hins
  unfold AtMostOneTokenPerIdentity at hinv ⊢
  simp only [List.pairwise_append, List.pairwise_cons, List.not_mem_nil, false_imp_iff,
    implies_true, List.Pairwise.nil, and_self, true_and, List.mem_singleton]
  refine ⟨hinv.sublist (List.filter_sublist _), ?_⟩
  intro a ha b hb
  subst hb
  simp only [List.mem_filter, decide_eq_true_eq] at ha
  rw [← hid]
  exact ha.2

/-! ## The claims -/

/-- C1, as stated, fails: in a store where another identity (`bob`) holds a record with
the plain text that is minted for `alice`, `alice` mints and commits her token, and
`AuthenticateToken` on `Bearer <token>`, before the expiry, returns the record of
`bob` (id `2`), not the identity the token was minted for (id `1`). -/
theorem C1_counterexample_shared_plaintext :
    GenerateToken exampleSum256 100 zeros alice 50 = .ok aliceToken ∧
    Insert bobStore 100 100 aliceToken alice = .ok bobStore1 ∧
    GetOne bobStore alice.ID = .ok aliceRecord ∧
    (120 : Time) < aliceToken.Expiry ∧
    (AuthenticateToken bobStore1 120 (str "Bearer " ++ aliceToken.Token)).2 = .ok bobRecord ∧
    bobRecord.ID = 2 ∧ alice.ID = 1 := by
  decide

/-- C1, amended: for every store state in which no token record of another identity
carries the minted plain text, every identity `u` that the store resolves by id and
every `ttl`: if `tok = GenerateToken(u, ttl)` and `Insert(tok, u)` succeeds, then
`AuthenticateToken` on the header `Bearer <tok.Token>`, at any instant before the
expiry, succeeds and returns the identity record the store holds for `u.ID`. -/
theorem C1_authenticate_after_commit (Sum256 : GoString → List Nat) (db db2 : DB)
    (now0 createdAt updatedAt now : Time) (gen : Nat → Nat) (u s : Student) (ttl : Duration)
    (tok : Token)
    (hmint : GenerateToken Sum256 now0 gen u ttl = .ok tok)
    (hins : Insert db createdAt updatedAt tok u = .ok db2)
    (hres : GetOne db u.ID = .ok s)
    (hfresh : ∀ r ∈ db.tokens, r.StudentID ≠ u.ID → r.Token ≠ tok.Token)
    (hnow : now < tok.Expiry) :
    (AuthenticateToken db2 now (str "Bearer " ++ tok.Token)).2 = .ok s ∧ s.ID = u.ID := by
  rw [GenerateToken_eq] at hmint
  simp only [Except.ok.injEq] at hmint
  subst hmint
  have hget := GetByToken_Insert hins hfresh
  have hst : GetStudentForToken db2
      { ID := db.nextTokenID, StudentID := u.ID, Email := u.Email,
        Token := EncodeToString (Read gen 16).1,
        TokenHash := Sum256 (EncodeToString (Read gen 16).1),
        CreatedAt := createdAt, UpdatedAt := updatedAt, Expiry := now0 + ttl } = .ok s := by
    rw [GetStudentForToken_eq_GetOne]
    unfold GetOne
    rw [students_Insert hins]
    exact hres
  refine ⟨?_, GetOne_ID hres⟩
  rw [AuthenticateToken_ok db2 now (minted_length gen) (minted_no_space gen) hget
    (le_of_lt hnow) hst]

/-- C1 amended, at `store0`: `alice` mints at the instant `100`, commits, and
authenticates at the instant `120`. -/
theorem C1_authenticate_after_commit_witness :
    (GenerateToken exampleSum256 100 zeros alice 50 = .ok aliceToken ∧
      Insert store0 100 100 aliceToken alice = .ok store1 ∧
      GetOne store0 alice.ID = .ok aliceRecord ∧
      (∀ r ∈ store0.tokens, r.StudentID ≠ alice.ID → r.Token ≠ aliceToken.Token) ∧
      (120 : Time) < aliceToken.Expiry) ∧
    ((AuthenticateToken store1 120 (str "Bearer " ++ aliceToken.Token)).2 = .ok aliceRecord ∧
      aliceRecord.ID = alice.ID) :=
  ⟨⟨mint_aliceToken, commit_store1, resolve_alice, by decide, by decide⟩,
    C1_authenticate_after_commit exampleSum256 store0 store1 100 100 100 120 zeros alice
      aliceRecord 50 aliceToken mint_aliceToken commit_store1 resolve_alice (by decide)
      (by decide)⟩

/-- C2, as stated, fails in two ways.  When the generator yields the same 16 bytes for
the second token, the plain text of the first token is the plain text of the second,
and authenticates.  When another identity holds a record with the plain text of the
first token, that plain text still authenticates (as the other identity) after the
second commit. -/
theorem C2_counterexample_first_token_still_authenticates :
    (GenerateToken exampleSum256 100 zeros alice 50 = .ok aliceToken ∧
      Insert store0 100 100 aliceToken alice = .ok store1 ∧
      GenerateToken exampleSum256 110 zeros alice 50 = .ok aliceToken2 ∧
      Insert store1 110 110 aliceToken2 alice = .ok store2 ∧
      (AuthenticateToken store2 120 (str "Bearer " ++ aliceToken.Token)).2 = .ok aliceRecord) ∧
    (GenerateToken exampleSum256 100 zeros alice 50 = .ok aliceToken ∧
      Insert bobStore 100 100 aliceToken alice = .ok bobStore1 ∧
      GenerateToken exampleSum256 110 ones alice 50 = .ok aliceToken3 ∧
      Insert bobStore1 110 110 aliceToken3 alice = .ok bobStore2 ∧
      (AuthenticateToken bobStore2 120 (str "Bearer " ++ aliceToken.Token)).2 =
        .ok bobRecord) := by
  decide

/-- C2, amended: for every store state and identity `u`, after a token `t1` is minted
and committed for `u` and then a second token `t2` is minted and committed for the same
`u`, if the plain text of `t2` differs from that of `t1` and no token record of another
identity carries the plain text of `t1`, then `AuthenticateToken` on the header
`Bearer <t1.Token>` fails: no matching token is found. -/
theorem C2_first_token_superseded (Sum256 : GoString → List Nat) (db db1 db2 : DB)
    (now1 now2 c1 c2 c3 c4 now : Time) (gen1 gen2 : Nat → Nat) (u : Student)
    (ttl1 ttl2 : Duration) (t1 t2 : Token)
    (hmint1 : GenerateToken Sum256 now1 gen1 u ttl1 = .ok t1)
    (hins1 : Insert db c1 c2 t1 u = .ok db1)
    (hmint2 : GenerateToken Sum256 now2 gen2 u ttl2 = .ok t2)
    (hins2 : Insert db1 c3 c4 t2 u = .ok db2)
    (hne : t2.Token ≠ t1.Token)
    (hfresh : ∀ r ∈ db.tokens, r.StudentID ≠ u.ID → r.Token ≠ t1.Token) :
    (AuthenticateToken db2 now (str "Bearer " ++ t1.Token)).2 =
      .error "no matching token found" := by
  rw [GenerateToken_eq] at hmint1 hmint2
  simp only [Except.ok.injEq] at hmint1 hmint2
  subst hmint1
  subst hmint2
  have hget : GetByToken db2 (EncodeToString (Read gen1 16).1) = .error ErrNoRows := by
    apply GetByToken_Insert_other hins2 hne
    intro r hr hid
    rcases (mem_tokens_Insert hins1 r).mp hr with ⟨hr0, hid0⟩ | hrow
    · exact hfresh r hr0 hid0
    · subst hrow
      exact absurd rfl hid
  rw [AuthenticateToken_not_found db2 now (minted_length gen1) (minted_no_space gen1) hget]

/-- C2 amended, at `store0`: `alice` commits a token minted from `zeros`, then one
minted from `ones`. -/
theorem C2_first_token_superseded_witness :
    (GenerateToken exampleSum256 100 zeros alice 50 = .ok aliceToken ∧
      Insert store0 100 100 aliceToken alice = .ok store1 ∧
      GenerateToken exampleSum256 110 ones alice 50 = .ok aliceToken3 ∧
      Insert store1 110 110 aliceToken3 alice = .ok store3 ∧
      aliceToken3.Token ≠ aliceToken.Token ∧
      (∀ r ∈ store0.tokens, r.StudentID ≠ alice.ID → r.Token ≠ aliceToken.Token)) ∧
    (AuthenticateToken store3 120 (str "Bearer " ++ aliceToken.Token)).2 =
      .error "no matching token found" :=
  ⟨⟨mint_aliceToken, commit_store1, mint_aliceToken3, commit_store3, by decide, by decide⟩,
    C2_first_token_superseded exampleSum256 store0 store1 store3 100 110 100 100 110 110 120
      zeros ones alice 50 50 aliceToken aliceToken3 mint_aliceToken commit_store1
      mint_aliceToken3 commit_store3 (by decide) (by decide)⟩

/-- C3, as stated, fails for a stored record that an older record shares its plain
text with.  The record `aliceRowB` of `alice` is stored in `bobStore1`, its identity
resolves and it expires at the instant `150`: at the instant `200`, after its expiry,
`AuthenticateToken` on its header does not fail with the expired-token error but
succeeds, as `bob`.  The same record is stored in `staleStore` behind a record that
expired at `50`: at the instant `100`, before its own expiry, `AuthenticateToken` on
its header fails with the expired-token error. -/
theorem C3_counterexample_shadowed_record :
    (aliceRowB ∈ bobStore1.tokens ∧
      GetStudentForToken bobStore1 aliceRowB = .ok aliceRecord ∧
      aliceRowB.Token.length = 26 ∧ 32 ∉ aliceRowB.Token ∧
      aliceRowB.Expiry < (200 : Time) ∧
      (AuthenticateToken bobStore1 200 (str "Bearer " ++ aliceRowB.Token)).2 =
        .ok bobRecord) ∧
    (aliceRowB ∈ staleStore.tokens ∧
      GetStudentForToken staleStore aliceRowB = .ok aliceRecord ∧
      (100 : Time) < aliceRowB.Expiry ∧
      (AuthenticateToken staleStore 100 (str "Bearer " ++ aliceRowB.Token)).2 =
        .error "expired token") := by
  decide

/-- C3, amended: for every stored token record that is the record the store returns for
its plain text (no older record carries the same plain text) and whose owning identity
resolves, and every instant `now`, `AuthenticateToken` on that token's well-formed
`Bearer` header fails with the expired-token error when `now` is after the record's
expiry, and succeeds, hence does not fail with that error, at every instant up to the
expiry; it succeeds one second before the expiry and fails with the expired-token
error one second after it. -/
theorem C3_expiry_boundary (db : DB) (now : Time) (tkn : Token) (s : Student)
    (hstored : GetByToken db tkn.Token = .ok tkn)
    (hlen : tkn.Token.length = 26) (hsp : 32 ∉ tkn.Token)
    (hres : GetStudentForToken db tkn = .ok s) :
    (tkn.Expiry < now →
      (AuthenticateToken db now (str "Bearer " ++ tkn.Token)).2 = .error "expired token") ∧
    (now ≤ tkn.Expiry →
      (AuthenticateToken db now (str "Bearer " ++ tkn.Token)).2 = .ok s ∧
      (AuthenticateToken db now (str "Bearer " ++ tkn.Token)).2 ≠ .error "expired token") ∧
    (AuthenticateToken db (tkn.Expiry - Second) (str "Bearer " ++ tkn.Token)).2 = .ok s ∧
    (AuthenticateToken db (tkn.Expiry + Second) (str "Bearer " ++ tkn.Token)).2 =
      .error "expired token" := by
  have hS : (0 : Int) < Second := by decide
  refine ⟨?_, ?_, ?_, ?_⟩
  · intro h
    rw [AuthenticateToken_expired db now hlen hsp hstored h]
  · intro h
    rw [AuthenticateToken_ok db now hlen hsp hstored h hres]
    simp
  · rw [AuthenticateToken_ok db _ hlen hsp hstored (sub_le_self _ (le_of_lt hS)) hres]
  · rw [AuthenticateToken_expired db _ hlen hsp hstored (lt_add_of_pos_right _ hS)]

/-- C3 amended, at the record of `alice` in `store1`, which expires at the instant `150`, seen at
the instant `120`. -/
theorem C3_expiry_boundary_witness :
    (GetByToken store1 aliceRow.Token = .ok aliceRow ∧ aliceRow.Token.length = 26 ∧
      32 ∉ aliceRow.Token ∧ GetStudentForToken store1 aliceRow = .ok aliceRecord) ∧
    ((aliceRow.Expiry < 120 →
      (AuthenticateToken store1 120 (str "Bearer " ++ aliceRow.Token)).2 =
        .error "expired token") ∧
    ((120 : Time) ≤ aliceRow.Expiry →
      (AuthenticateToken store1 120 (str "Bearer " ++ aliceRow.Token)).2 = .ok aliceRecord ∧
      (AuthenticateToken store1 120 (str "Bearer " ++ aliceRow.Token)).2 ≠
        .error "expired token") ∧
    (AuthenticateToken store1 (aliceRow.Expiry - Second) (str "Bearer " ++ aliceRow.Token)).2 =
      .ok aliceRecord ∧
    (AuthenticateToken store1 (aliceRow.Expiry + Second) (str "Bearer " ++ aliceRow.Token)).2 =
      .error "expired token") :=
  ⟨⟨by decide, by decide, by decide, by decide⟩,
    C3_expiry_boundary store1 120 aliceRow aliceRecord (by decide) (by decide) (by decide)
      (by decide)⟩

/-- C4, as stated, fails at `expiry == now`: the record of `alice` in `store1` expires
at the instant `150`, and at the instant `150` `AuthenticateToken` finds it and
succeeds. -/
theorem C4_counterexample_at_expiry :
    GetByToken store1 aliceRow.Token = .ok aliceRow ∧
    aliceRow.Expiry ≤ (150 : Time) ∧
    (AuthenticateToken store1 150 (str "Bearer " ++ aliceRow.Token)).2 = .ok aliceRecord := by
  decide

/-- C4, amended: for every stored token record found by `AuthenticateToken` and every
instant `now`, `AuthenticateToken` fails with the expired-token error exactly when the
record's expiry is strictly before `now` (`expiry < now`); at `expiry == now` it does not
fail with that error. -/
theorem C4_expired_iff_strictly_before (db : DB) (now : Time) (token : GoString)
    (tkn : Token) (hlen : token.length = 26) (hsp : 32 ∉ token)
    (hfound : GetByToken db token = .ok tkn) :
    ((AuthenticateToken db now (str "Bearer " ++ token)).2 = .error "expired token" ↔
      tkn.Expiry < now) ∧
    (AuthenticateToken db tkn.Expiry (str "Bearer " ++ token)).2 ≠ .error "expired token" := by
  have key : ∀ t : Time, ¬ tkn.Expiry < t →
      (AuthenticateToken db t (str "Bearer " ++ token)).2 ≠ .error "expired token" := by
    intro t ht
    rw [AuthenticateToken_Bearer db t hlen hsp, hfound]
    simp only [ht, if_false]
    split <;> simp
  refine ⟨⟨?_, ?_⟩, key _ (lt_irrefl _)⟩
  · intro h
    by_contra hn
    exact key now hn h
  · intro h
    rw [AuthenticateToken_expired db now hlen hsp hfound h]

/-- C4 amended, at the record of `alice` in `store1` and the instant `151`. -/
theorem C4_expired_iff_strictly_before_witness :
    (aliceRow.Token.length = 26 ∧ 32 ∉ aliceRow.Token ∧
      GetByToken store1 aliceRow.Token = .ok aliceRow) ∧
    (((AuthenticateToken store1 151 (str "Bearer " ++ aliceRow.Token)).2 =
        .error "expired token" ↔ aliceRow.Expiry < 151) ∧
      (AuthenticateToken store1 aliceRow.Expiry (str "Bearer " ++ aliceRow.Token)).2 ≠
        .error "expired token") :=
  ⟨⟨by decide, by decide, by decide⟩,
    C4_expired_iff_strictly_before store1 151 aliceRow.Token aliceRow (by decide) (by decide)
      (by decide)⟩

/-- C5: for every `Authorization` header value that is not exactly two space-separated
segments, the first literally `Bearer` and the second 26 bytes long, `AuthenticateToken`
returns one of its three malformed-input errors and sends no query, neither to the
token table nor to the student table. -/
theorem C5_malformed_header_rejected (db : DB) (now : Time) {h : GoString}
    (hw : ¬ WellFormedHeader h) :
    (AuthenticateToken db now h).1 = [] ∧
      ((AuthenticateToken db now h).2 = .error "no authorization header received" ∨
       (AuthenticateToken db now h).2 = .error "no valid authorization header received" ∨
       (AuthenticateToken db now h).2 = .error "token wrong size") := by
  unfold AuthenticateToken
  split
  · simp
  · dsimp only
    split
    · simp
    · rename_i h1
      split
      · simp
      · rename_i h3
        exfalso
        apply hw
        simp only [not_or, not_not] at h1 h3
        exact WellFormedHeader_of_parse h1.1 h1.2 h3

/-- C5 at the headers `Token xyz`, `Bearer`, the empty header, `Bearer  x` (two spaces)
and `Bearer short`. -/
theorem C5_malformed_header_rejected_witness :
    (¬ WellFormedHeader (str "Token xyz") ∧ ¬ WellFormedHeader (str "Bearer") ∧
      ¬ WellFormedHeader (str "") ∧ ¬ WellFormedHeader (str "Bearer  x") ∧
      ¬ WellFormedHeader (str "Bearer short")) ∧
    ((AuthenticateToken store1 120 (str "Token xyz")).1 = [] ∧
      ((AuthenticateToken store1 120 (str "Token xyz")).2 =
          .error "no authorization header received" ∨
       (AuthenticateToken store1 120 (str "Token xyz")).2 =
          .error "no valid authorization header received" ∨
       (AuthenticateToken store1 120 (str "Token xyz")).2 = .error "token wrong size")) ∧
    (AuthenticateToken store1 120 (str "Bearer")).1 = [] ∧
    (AuthenticateToken store1 120 (str "")).1 = [] ∧
    (AuthenticateToken store1 120 (str "Bearer  x")).1 = [] ∧
    (AuthenticateToken store1 120 (str "Bearer short")).1 = [] :=
  ⟨⟨by decide, by decide, by decide, by decide, by decide⟩,
    C5_malformed_header_rejected store1 120 (by decide),
    (C5_malformed_header_rejected store1 120 (by decide)).1,
    (C5_malformed_header_rejected store1 120 (by decide)).1,
    (C5_malformed_header_rejected store1 120 (by decide)).1,
    (C5_malformed_header_rejected store1 120 (by decide)).1⟩

/-- C6: for every state of the generator, hence for every 16 random bytes,
`GenerateToken` returns a token whose plain text is the unpadded base-32 encoding of the
16 bytes, is exactly 26 bytes long, consists of symbols of the alphabet `A`-`Z`, `2`-`7`
only (no `=`), and passes the parsing steps of `AuthenticateToken`: the header
`Bearer <token>` is not turned down for its size and the token is looked up.  The
encoding of any 16 bytes has that length and those symbols. -/
theorem C6_minted_token_shape (Sum256 : GoString → List Nat) (now : Time) (gen : Nat → Nat)
    (user : Student) (ttl : Duration) :
    (∃ tok, GenerateToken Sum256 now gen user ttl = .ok tok ∧
      tok.Token = EncodeToString (Read gen 16).1 ∧
      (Read gen 16).1.length = 16 ∧
      tok.Token.length = 26 ∧
      (∀ c ∈ tok.Token, IsBase32Symbol c) ∧
      61 ∉ tok.Token ∧
      ∀ (db : DB) (t : Time),
        (AuthenticateToken db t (str "Bearer " ++ tok.Token)).2 ≠ .error "token wrong size" ∧
        (AuthenticateToken db t (str "Bearer " ++ tok.Token)).1.head? =
          some (.tokenByPlainText tok.Token)) ∧
    ∀ src : List Nat, src.length = 16 →
      (EncodeToString src).length = 26 ∧ ∀ c ∈ EncodeToString src, IsBase32Symbol c := by
  refine ⟨⟨_, GenerateToken_eq Sum256 now gen user ttl, rfl, Read_length gen 16,
    minted_length gen, Encode_symbol _, ?_, ?_⟩, ?_⟩
  · intro h
    exact IsBase32Symbol_ne_pad (Encode_symbol _ _ h) rfl
  · intro db t
    rw [AuthenticateToken_Bearer db t (minted_length gen) (minted_no_space gen)]
    split
    · simp
    · split
      · simp
      · split <;> simp
  · intro src h16
    refine ⟨?_, Encode_symbol src⟩
    rw [EncodeToString, Encode_length, h16]
    rfl

/-- C7: for every store state and every minted token with plain text `T`, after
`DeleteByToken(T)` succeeds (the logout flow answers `logged out`), the store holds no
token record whose plain text is `T`, `AuthenticateToken` on `Bearer T` fails with the
no-matching-token error, the records with any other plain text are the same as before,
and the identities are untouched. -/
theorem C7_logout_revokes (Sum256 : GoString → List Nat) (now0 now : Time) (gen : Nat → Nat)
    (u : Student) (ttl : Duration) (tok : Token) (db db2 : DB)
    (hmint : GenerateToken Sum256 now0 gen u ttl = .ok tok)
    (hdel : DeleteByToken db tok.Token = .ok db2) :
    Logout db none tok.Token =
      ([.writeJSON 200 { Error := false, Message := "logged out" }], db2) ∧
    (∀ r ∈ db2.tokens, r.Token ≠ tok.Token) ∧
    (AuthenticateToken db2 now (str "Bearer " ++ tok.Token)).2 =
      .error "no matching token found" ∧
    (∀ other : GoString, other ≠ tok.Token →
      db2.tokens.filter (fun r => r.Token = other) =
        db.tokens.filter (fun r => r.Token = other)) ∧
    db2.students = db.students := by
  rw [GenerateToken_eq] at hmint
  simp only [Except.ok.injEq] at hmint
  subst hmint
  have hget := GetByToken_DeleteByToken hdel
  have hauth := AuthenticateToken_not_found db2 now (minted_length gen) (minted_no_space gen) hget
  have hlog : Logout db none (EncodeToString (Read gen 16).1) =
      ([.writeJSON 200 { Error := false, Message := "logged out" }], db2) := by
    unfold Logout
    simp only []
    rw [hdel]
  rw [DeleteByToken_eq] at hdel
  simp only [Except.ok.injEq] at hdel
  subst hdel
  refine ⟨hlog, ?_, ?_, ?_, rfl⟩
  · intro r hr
    simp only [List.mem_filter, decide_eq_true_eq] at hr
    simpa using hr.2
  · rw [hauth]
  · intro other hother
    simp only [List.filter_filter]
    apply List.filter_congr
    intro r _
    by_cases h : r.Token = other
    · simp [h, hother]
    · simp [h]

/-- C7 at `store1`, where the token of `alice` is committed. -/
theorem C7_logout_revokes_witness :
    (GenerateToken exampleSum256 100 zeros alice 50 = .ok aliceToken ∧
      DeleteByToken store1 aliceToken.Token = .ok store1Revoked) ∧
    (Logout store1 none aliceToken.Token =
      ([.writeJSON 200 { Error := false, Message := "logged out" }], store1Revoked) ∧
    (∀ r ∈ store1Revoked.tokens, r.Token ≠ aliceToken.Token) ∧
    (AuthenticateToken store1Revoked 120 (str "Bearer " ++ aliceToken.Token)).2 =
      .error "no matching token found" ∧
    (∀ other : GoString, other ≠ aliceToken.Token →
      store1Revoked.tokens.filter (fun r => r.Token = other) =
        store1.tokens.filter (fun r => r.Token = other)) ∧
    store1Revoked.students = store1.students) :=
  ⟨⟨mint_aliceToken, by decide⟩,
    C7_logout_revokes exampleSum256 100 120 zeros alice 50 aliceToken store1 store1Revoked
      mint_aliceToken (by decide)⟩

/-- C8 fails on the code: in `store0`, a login with an email that resolves to no
identity is answered with the message `user does not exist`, and a login with the email
of `alice` and a wrong password with the message `invalid username/password`; both go
through `errorJSON` with no explicit status and leave the store as it was. -/
theorem C8_login_failures_differ :
    GetByEmail store0 (str "nobody@x.com") = .error ErrNoRows ∧
    Login exampleCompare exampleSum256 store0 100 100 100 zeros none
        { UserName := str "nobody@x.com", Password := str "secret123" } =
      ([.errorJSON "user does not exist" []], store0) ∧
    Login exampleCompare exampleSum256 store0 100 100 100 zeros none
        { UserName := str "a@x.com", Password := str "wrong" } =
      ([.errorJSON "invalid username/password" []], store0) := by
  decide

/-- C9 fails on the code: `store1` holds one token record per identity; `Insert` of a
token record whose `StudentID` is `2` together with the identity `alice` (id `1`)
deletes the records of identity `2` and inserts a record for identity `1`: the prior
record of `alice` is still in the store, which now holds two records with student id
`1`. -/
theorem C9_insert_keeps_prior_record :
    AtMostOneTokenPerIdentity store1 ∧
    Insert store1 200 200 strayToken alice = .ok strayStore ∧
    aliceRow ∈ store1.tokens ∧ aliceRow.StudentID = alice.ID ∧
    aliceRow ∈ strayStore.tokens ∧
    (strayStore.tokens.filter (fun r => r.StudentID = alice.ID)).length = 2 ∧
    ¬ AtMostOneTokenPerIdentity strayStore := by
  decide

/-- C10 fails on the code: `GenerateToken` reads its 16 bytes with `rand.Read` of
`math/rand`, which reports no error, so the mint never aborts; the plain text is the
encoding of the next 16 outputs of the generator, the same for any identity, instant
and `ttl` at the same generator state. -/
theorem C10_token_determined_by_generator_state (Sum256 : GoString → List Nat)
    (now1 now2 : Time) (gen : Nat → Nat) (u1 u2 : Student) (ttl1 ttl2 : Duration) :
    (Read gen 16).2 = none ∧
    ∃ t1 t2, GenerateToken Sum256 now1 gen u1 ttl1 = .ok t1 ∧
      GenerateToken Sum256 now2 gen u2 ttl2 = .ok t2 ∧
      t1.Token = EncodeToString ((List.range 16).map (fun i => gen i % 256)) ∧
      t2.Token = t1.Token :=
  ⟨rfl, _, _, GenerateToken_eq Sum256 now1 gen u1 ttl1, GenerateToken_eq Sum256 now2 gen u2 ttl2,
    rfl, rfl⟩

end NBA
